import Mathlib

/-!
# Verification of the bitcoin-bot investment accounting engine

Shallow embedding of the `Investor` core of the `pahautelman/bitcoin-bot`
repository: the `SpotInvestor` (`src/agents/investors/basic/spot_investor.py`)
and the `MarginInvestor` (`src/agents/investors/basic/margin_investor.py`),
together with the action / ledger data model from `src/actions/actions.py`.

Python floats are modelled as rationals (`ℚ`), timestamps as natural numbers
(only their identity and order matter to the core), and the pandas `DataFrame`
ledgers as Lean lists of row structures kept in insertion order.
-/

namespace BitcoinBot

/-- The `ActionSimple` values `'BUY' | 'SELL' | 'HOLD'` from `actions.py`;
in Python an action is an arbitrary string compared against those three
constants, so any other string is represented by the `other` constructor. -/
inductive Action
  | BUY
  | SELL
  | HOLD
  | other : String → Action
deriving DecidableEq

/-- One row of the spot `Investments` ledger: the timestamp index together
with the signed `FIAT_AMOUNT_INVESTED` and `COIN_AMOUNT` columns that
`SpotInvestor._make_buy_investment` / `_make_sell_investment` write. -/
structure SpotRow where
  date : Nat
  fiat_amount_invested : ℚ
  coin_amount : ℚ
deriving DecidableEq

/-- Modelled from the spec: construction of an empty `Investments` ledger
(`Investments()` in `actions.py`).  The copy of `actions.py` under `src/` is a
stale revision whose column constants (`USD_AMOUNT_INVESTED`,
`COIN_AMOUNT_INVESTED`) do not match the columns the investors and their tests
use (`FIAT_AMOUNT_INVESTED`, `COIN_AMOUNT`), so the current ledger class is
missing from `src/` and is modelled from the spec: the ledger is an append-only
list of rows, `make_investment` "Returns the ledger entries produced (possibly
empty, if rejected)", and "HOLD: always a no-op, no ledger row" - hence the
empty ledger is constructible and is the empty list of rows. -/
def emptyInvestments : List SpotRow := []

/-- Mutable state of a `SpotInvestor`: `portfolio_size` (fiat balance),
`accumulated_coins`, the configuration constants `investment_size` and
`trading_fee`, and the last observed close price `last_close`. -/
structure SpotState where
  portfolio_size : ℚ
  accumulated_coins : ℚ
  investment_size : ℚ
  trading_fee : ℚ
  last_close : ℚ
deriving DecidableEq

/-- `SpotInvestor._make_buy_investment`: reject when
`portfolio_size < investment_size`; otherwise debit `investment_size`, credit
`(investment_size - investment_size * trading_fee) / last_close` coins and emit
one ledger row `{FIAT_AMOUNT_INVESTED: -investment_size, COIN_AMOUNT: +coins}`. -/
def SpotState.make_buy_investment (s : SpotState) (date : Nat) :
    SpotState × List SpotRow :=
  if s.portfolio_size < s.investment_size then
    (s, emptyInvestments)
  else
    let trading_fee := s.investment_size * s.trading_fee
    let coin_amount := (s.investment_size - trading_fee) / s.last_close
    ({ s with
        portfolio_size := s.portfolio_size - s.investment_size,
        accumulated_coins := s.accumulated_coins + coin_amount },
     [{ date := date, fiat_amount_invested := -s.investment_size,
        coin_amount := coin_amount }])

/-- `SpotInvestor._make_sell_investment`: compute
`coin_amount = investment_size / last_close`; reject when
`coin_amount > accumulated_coins`; otherwise debit the coins, credit
`investment_size - investment_size * trading_fee` fiat and emit one ledger row
`{FIAT_AMOUNT_INVESTED: +investment_size, COIN_AMOUNT: -coin_amount}`. -/
def SpotState.make_sell_investment (s : SpotState) (date : Nat) :
    SpotState × List SpotRow :=
  let coin_amount := s.investment_size / s.last_close
  if s.accumulated_coins < coin_amount then
    (s, emptyInvestments)
  else
    let trading_fee := s.investment_size * s.trading_fee
    ({ s with
        accumulated_coins := s.accumulated_coins - coin_amount,
        portfolio_size := s.portfolio_size + s.investment_size - trading_fee },
     [{ date := date, fiat_amount_invested := s.investment_size,
        coin_amount := -coin_amount }])

/-- `SpotInvestor._make_investment`: dispatch on the action value; `HOLD`
returns an empty ledger, `BUY`/`SELL` delegate, and any other value raises
`ValueError(f'Invalid action type: ...')` (modelled as `Except.error`). -/
def SpotState.make_investment_core (s : SpotState) (date : Nat) (a : Action) :
    Except String (SpotState × List SpotRow) :=
  match a with
  | Action.HOLD => Except.ok (s, emptyInvestments)
  | Action.BUY => Except.ok (s.make_buy_investment date)
  | Action.SELL => Except.ok (s.make_sell_investment date)
  | Action.other t => Except.error ("Invalid action type: " ++ t)

/-- `SpotInvestor.get_portfolio_value`. -/
def SpotState.get_portfolio_value (s : SpotState) : ℚ :=
  s.portfolio_size + s.accumulated_coins * s.last_close

/-- `SpotInvestor.get_portfolio_value_final`. -/
def SpotState.get_portfolio_value_final (s : SpotState) : ℚ :=
  let coin_value := s.accumulated_coins * s.last_close
  let trading_fee := coin_value * s.trading_fee
  s.portfolio_size + coin_value - trading_fee

/-- `SpotInvestor.make_investment`: record the last close price from the price
history, delegate to `_make_investment`, and pair the result with the requested
valuation. -/
def SpotState.make_investment (s : SpotState) (close : ℚ) (date : Nat)
    (a : Action) (return_final_portfolio_value : Bool) :
    Except String (SpotState × List SpotRow × ℚ) :=
  let s1 := { s with last_close := close }
  match s1.make_investment_core date a with
  | Except.error e => Except.error e
  | Except.ok (s2, rows) =>
      Except.ok (s2, rows,
        if return_final_portfolio_value then s2.get_portfolio_value_final
        else s2.get_portfolio_value)

/-- The `'LONG'` / `'SHORT'` investment-type strings of the margin ledger. -/
inductive PositionType
  | LONG
  | SHORT
deriving DecidableEq

/-- One row of the `MarginInvestor.MarginInvestments` ledger:
`{INVESTMENT_TYPE, FIAT_AMOUNT_INVESTED, ASSET_PRICE, LEVERAGE, IS_ACTIVE}`,
indexed by the investment date. -/
structure Position where
  date : Nat
  investment_type : PositionType
  usd_invested : ℚ
  asset_price : ℚ
  leverage : ℚ
  is_active : Bool
deriving DecidableEq

/-- Mutable state of a `MarginInvestor`: available fiat (`portfolio_size`),
the configuration constants, the margin ledger, the last observed close price
and the sticky `can_trade` flag. -/
structure MarginState where
  portfolio_size : ℚ
  investment_size : ℚ
  investments : List Position
  asset_interest_rate : ℚ
  fiat_interest_rate : ℚ
  take_profit_percentage : ℚ
  stop_loss_percentage : ℚ
  last_close_price : ℚ
  can_trade : Bool
deriving DecidableEq

/-- Per-position body of `MarginInvestor._update_portfolio_value`: skip
inactive rows; otherwise subtract the interest
(`FIAT_AMOUNT_INVESTED * LEVERAGE * rate`, fiat rate for LONG, asset rate for
SHORT) from the running available fiat, then check take-profit before
stop-loss with inclusive comparisons, realizing P&L plus the returned borrowed
notional and deactivating the row when one fires. -/
def MarginState.positionStep (s : MarginState) (fiat : ℚ) (p : Position) :
    ℚ × Position :=
  if p.is_active = false then
    (fiat, p)
  else
    let notional := p.usd_invested * p.leverage
    match p.investment_type with
    | PositionType.LONG =>
        let fiat1 := fiat - notional * s.fiat_interest_rate
        let tp_price := p.asset_price * s.take_profit_percentage
        let sl_price := p.asset_price * s.stop_loss_percentage
        if s.last_close_price ≥ tp_price then
          (fiat1 + notional * (s.take_profit_percentage - 1) + notional,
           { p with is_active := false })
        else if s.last_close_price ≤ sl_price then
          (fiat1 + notional * (s.stop_loss_percentage - 1) + notional,
           { p with is_active := false })
        else
          (fiat1, p)
    | PositionType.SHORT =>
        let fiat1 := fiat - notional * s.asset_interest_rate
        let tp_price := p.asset_price * (2 - s.take_profit_percentage)
        let sl_price := p.asset_price * (2 - s.stop_loss_percentage)
        if s.last_close_price ≤ tp_price then
          (fiat1 + notional * (s.take_profit_percentage - 1) + notional,
           { p with is_active := false })
        else if s.last_close_price ≥ sl_price then
          (fiat1 + notional * (s.stop_loss_percentage - 1) + notional,
           { p with is_active := false })
        else
          (fiat1, p)

/-- `MarginInvestor._update_portfolio_value`: run `positionStep` over every
ledger row in order, threading the available fiat, then permanently clear
`can_trade` when the resulting available fiat is `≤ 0`. -/
def MarginState.update_portfolio_value (s : MarginState) : MarginState :=
  let r := s.investments.foldl
    (fun acc p =>
      let fp := s.positionStep acc.1 p
      (fp.1, acc.2 ++ [fp.2]))
    (s.portfolio_size, ([] : List Position))
  let s1 := { s with portfolio_size := r.1, investments := r.2 }
  if s1.portfolio_size ≤ 0 then { s1 with can_trade := false } else s1

/-- `MarginInvestor._make_long_investment`: reject (empty result, state
unchanged) when `portfolio_size < investment_size * leverage`; otherwise debit
`investment_size * leverage` and append an active LONG row at the last close
price. -/
def MarginState.make_long_investment (s : MarginState) (date : Nat)
    (leverage : ℚ) : MarginState × List Position :=
  let investment_amount := s.investment_size * leverage
  if s.portfolio_size < investment_amount then
    (s, [])
  else
    let p : Position :=
      { date := date, investment_type := PositionType.LONG,
        usd_invested := s.investment_size, asset_price := s.last_close_price,
        leverage := leverage, is_active := true }
    ({ s with
        portfolio_size := s.portfolio_size - investment_amount,
        investments := s.investments ++ [p] },
     [p])

/-- `MarginInvestor._make_short_investment`: same affordability test and debit
as the long case, appending an active SHORT row. -/
def MarginState.make_short_investment (s : MarginState) (date : Nat)
    (leverage : ℚ) : MarginState × List Position :=
  let investment_amount := s.investment_size * leverage
  if s.portfolio_size < investment_amount then
    (s, [])
  else
    let p : Position :=
      { date := date, investment_type := PositionType.SHORT,
        usd_invested := s.investment_size, asset_price := s.last_close_price,
        leverage := leverage, is_active := true }
    ({ s with
        portfolio_size := s.portfolio_size - investment_amount,
        investments := s.investments ++ [p] },
     [p])

/-- `MarginInvestor._make_investment`: `BUY` opens a long, `SELL` opens a
short, and every other action value (including `HOLD` and invalid strings)
falls through to an empty result - the margin investor has no raise path. -/
def MarginState.make_investment_core (s : MarginState) (date : Nat)
    (a : Action) (strength : ℚ) : MarginState × List Position :=
  match a with
  | Action.BUY => s.make_long_investment date strength
  | Action.SELL => s.make_short_investment date strength
  | _ => (s, [])

/-- Contribution of one still-active ledger row to
`MarginInvestor.get_portfolio_value_final`: the returned borrowed notional
plus the unrealized P&L from the `last_close / entry_price` ratio. -/
def MarginState.positionContribution (s : MarginState) (p : Position) : ℚ :=
  let notional := p.usd_invested * p.leverage
  let pct_change := s.last_close_price / p.asset_price
  notional +
    (if p.investment_type = PositionType.LONG then notional * (pct_change - 1)
     else notional * (1 - pct_change))

/-- `MarginInvestor.get_portfolio_value_final`: `0.0` when `can_trade` is
false; otherwise the available fiat plus the contribution of every still-active
position. -/
def MarginState.get_portfolio_value_final (s : MarginState) : ℚ :=
  if s.can_trade = false then 0
  else
    s.investments.foldl
      (fun acc p =>
        if p.is_active = false then acc else acc + s.positionContribution p)
      s.portfolio_size

/-- `MarginInvestor.get_portfolio_value`: delegates to
`get_portfolio_value_final`. -/
def MarginState.get_portfolio_value (s : MarginState) : ℚ :=
  s.get_portfolio_value_final

/-- `MarginInvestor.make_investment`: record the last close price, run the
interest/TP-SL update pass, then execute the decision and pair the result with
the requested valuation. -/
def MarginState.make_investment (s : MarginState) (close : ℚ) (date : Nat)
    (a : Action) (strength : ℚ) (return_final_portfolio_value : Bool) :
    MarginState × List Position × ℚ :=
  let s1 := ({ s with last_close_price := close }).update_portfolio_value
  let r := s1.make_investment_core date a strength
  (r.1, r.2,
   if return_final_portfolio_value then r.1.get_portfolio_value_final
   else r.1.get_portfolio_value)

/-- Lookup of the decision recorded at a given price-series timestamp
(`date not in actions.index` when `none`); the pair is the `ACTION` and
`INDICATOR_STRENGTH` columns. -/
def lookupAction (acts : List (Nat × Action × ℚ)) (date : Nat) :
    Option (Action × ℚ) :=
  acts.lookup date

/-- One timestamp of `MarginInvestor.invest`: with no decision at the date,
record the close price and run the update pass; with a decision, delegate to
`make_investment` (which runs the same update pass first). -/
def MarginState.investStep (acts : List (Nat × Action × ℚ)) (s : MarginState)
    (row : Nat × ℚ) : MarginState :=
  match lookupAction acts row.1 with
  | none => ({ s with last_close_price := row.2 }).update_portfolio_value
  | some p => (s.make_investment row.2 row.1 p.1 p.2 false).1

/-- `MarginInvestor.invest`: walk the price series in order, applying
`investStep` at every timestamp. -/
def MarginState.invest (s : MarginState) (coin_data : List (Nat × ℚ))
    (acts : List (Nat × Action × ℚ)) : MarginState :=
  coin_data.foldl (MarginState.investStep acts) s

/-- A state-mutating call on a `MarginInvestor`: one `invest` run or one
`make_investment` call (the valuation queries are pure and mutate nothing). -/
inductive MarginOp
  | investOp (coin_data : List (Nat × ℚ)) (acts : List (Nat × Action × ℚ))
  | makeInvestmentOp (close : ℚ) (date : Nat) (a : Action) (strength : ℚ)
      (return_final_portfolio_value : Bool)

/-- Apply one state-mutating call. -/
def MarginState.applyOp (s : MarginState) (op : MarginOp) : MarginState :=
  match op with
  | MarginOp.investOp coin_data acts => s.invest coin_data acts
  | MarginOp.makeInvestmentOp close date a strength rf =>
      (s.make_investment close date a strength rf).1

/-- Apply a sequence of state-mutating calls in order. -/
def MarginState.applyOps (s : MarginState) (ops : List MarginOp) : MarginState :=
  ops.foldl MarginState.applyOp s

/-- Valuation formula stated from the specification text (spec §4.3): available
fiat plus, for every still-active position, the returned notional
(`fiat_committed * leverage`) plus the unrealized P&L computed from the
`last_close / entry_price` ratio (LONG: `fiat_committed * leverage *
(ratio - 1)`; SHORT: `fiat_committed * leverage * (1 - ratio)`).  Used only to
compare against the implementation-side `get_portfolio_value_final`. -/
def marginValueSpec (s : MarginState) : ℚ :=
  s.portfolio_size +
    ((s.investments.filter fun p => p.is_active).map
      (fun p =>
        let pc := s.last_close_price / p.asset_price
        p.usd_invested * p.leverage +
          (if p.investment_type = PositionType.LONG
           then p.usd_invested * p.leverage * (pc - 1)
           else p.usd_invested * p.leverage * (1 - pc)))).sum

/-- Concrete spot state mirroring the repository's unit-test fixture
(`portfolio=1000`, `investment_size=100`, `fee=0.001`, last close 140) with
one accumulated coin. -/
def exSpot : SpotState :=
  { portfolio_size := 1000, accumulated_coins := 1, investment_size := 100,
    trading_fee := 1/1000, last_close := 140 }

/-- Concrete spot state with no fiat and no coins, so BUY and SELL are both
rejected. -/
def exSpotPoor : SpotState :=
  { portfolio_size := 0, accumulated_coins := 0, investment_size := 100,
    trading_fee := 1/1000, last_close := 140 }

/-- Concrete margin state mirroring the repository's unit-test fixture. -/
def exMargin : MarginState :=
  { portfolio_size := 1000, investment_size := 100, investments := [],
    asset_interest_rate := 5/100000, fiat_interest_rate := 4/10000,
    take_profit_percentage := 11/10, stop_loss_percentage := 95/100,
    last_close_price := 100, can_trade := true }

/-- The concrete margin state after a margin-call wipeout (`can_trade` false). -/
def exMarginDown : MarginState :=
  { exMargin with can_trade := false }

/-- Concrete margin configuration in which a close price can satisfy the
take-profit and the stop-loss threshold simultaneously. -/
def exMarginWeird : MarginState :=
  { exMargin with take_profit_percentage := 9/10, stop_loss_percentage := 11/10 }

/-- Concrete margin configuration with an interest rate large enough to drive
the available fiat negative in one accrual. -/
def exMarginHighRate : MarginState :=
  { exMargin with fiat_interest_rate := 10 }

/-- A concrete active LONG position opened at entry price 100 with leverage 2. -/
def exPosLong : Position :=
  { date := 1, investment_type := PositionType.LONG, usd_invested := 100,
    asset_price := 100, leverage := 2, is_active := true }

/-- The unit-test margin state holding one active LONG position, marked at a
later close price. -/
def exMarginWithPos : MarginState :=
  { exMargin with investments := [exPosLong], last_close_price := 120 }

/-- The unit-test margin state holding one active LONG position with neither
TP nor SL threshold crossed at the current close price. -/
def exMarginOnePos : MarginState :=
  { exMargin with investments := [exPosLong] }

/-- A concrete sequence of later calls (one `invest` run over two timestamps
followed by one `make_investment` call) used to exercise the sticky
`can_trade` flag. -/
def exOps : List MarginOp :=
  [MarginOp.investOp [(1, 100), (2, 90)] [(2, (Action.BUY, 2))],
   MarginOp.makeInvestmentOp 80 3 Action.SELL 1 true]

section Lemmas

/-- `_update_portfolio_value` never changes the recorded last close price. -/
lemma upv_last_close (s : MarginState) :
    s.update_portfolio_value.last_close_price = s.last_close_price := by
  simp only [MarginState.update_portfolio_value]
  split <;> rfl

/-- `_update_portfolio_value` never changes the configured investment size. -/
lemma upv_investment_size (s : MarginState) :
    s.update_portfolio_value.investment_size = s.investment_size := by
  simp only [MarginState.update_portfolio_value]
  split <;> rfl

/-- `_update_portfolio_value` only ever clears `can_trade`, never sets it. -/
lemma upv_can_trade_false {s : MarginState} (h : s.can_trade = false) :
    s.update_portfolio_value.can_trade = false := by
  simp only [MarginState.update_portfolio_value]
  split
  · rfl
  · exact h

/-- `_make_long_investment` never touches `can_trade`. -/
lemma long_can_trade (s : MarginState) (date : Nat) (leverage : ℚ) :
    (s.make_long_investment date leverage).1.can_trade = s.can_trade := by
  simp only [MarginState.make_long_investment]
  split <;> rfl

/-- `_make_short_investment` never touches `can_trade`. -/
lemma short_can_trade (s : MarginState) (date : Nat) (leverage : ℚ) :
    (s.make_short_investment date leverage).1.can_trade = s.can_trade := by
  simp only [MarginState.make_short_investment]
  split <;> rfl

/-- `_make_investment` never touches `can_trade`. -/
lemma core_can_trade (s : MarginState) (date : Nat) (a : Action) (strength : ℚ) :
    (s.make_investment_core date a strength).1.can_trade = s.can_trade := by
  cases a <;>
    simp [MarginState.make_investment_core, long_can_trade, short_can_trade]

/-- `make_investment` only ever clears `can_trade`, never sets it. -/
lemma make_investment_can_trade_false {s : MarginState} (close : ℚ) (date : Nat)
    (a : Action) (strength : ℚ) (rf : Bool) (h : s.can_trade = false) :
    (s.make_investment close date a strength rf).1.can_trade = false := by
  simp only [MarginState.make_investment]
  rw [core_can_trade]
  exact upv_can_trade_false h

/-- One `invest` timestamp only ever clears `can_trade`, never sets it. -/
lemma investStep_can_trade_false {s : MarginState}
    (acts : List (Nat × Action × ℚ)) (row : Nat × ℚ)
    (h : s.can_trade = false) :
    (s.investStep acts row).can_trade = false := by
  simp only [MarginState.investStep]
  rcases lookupAction acts row.1 with _ | p
  · exact upv_can_trade_false h
  · exact make_investment_can_trade_false _ _ _ _ _ h

/-- A whole `invest` run only ever clears `can_trade`, never sets it. -/
lemma invest_can_trade_false (coin_data : List (Nat × ℚ))
    (acts : List (Nat × Action × ℚ)) :
    ∀ s : MarginState, s.can_trade = false →
      (s.invest coin_data acts).can_trade = false := by
  induction coin_data with
  | nil => intro s h; exact h
  | cons hd tl ih =>
      intro s h
      exact ih _ (investStep_can_trade_false acts hd h)

/-- Every state-mutating call only ever clears `can_trade`, never sets it. -/
lemma applyOp_can_trade_false {s : MarginState} (op : MarginOp)
    (h : s.can_trade = false) : (s.applyOp op).can_trade = false := by
  cases op with
  | investOp coin_data acts => exact invest_can_trade_false coin_data acts s h
  | makeInvestmentOp close date a strength rf =>
      exact make_investment_can_trade_false close date a strength rf h

/-- Both valuation queries return `0.0` whenever `can_trade` is false. -/
lemma value_zero_of_can_trade_false {s : MarginState}
    (h : s.can_trade = false) :
    s.get_portfolio_value_final = 0 ∧ s.get_portfolio_value = 0 := by
  constructor <;>
    simp [MarginState.get_portfolio_value, MarginState.get_portfolio_value_final, h]

/-- Inactive rows are skipped by the update pass. -/
lemma positionStep_inactive (s : MarginState) (fiat : ℚ) (p : Position)
    (h : p.is_active = false) : s.positionStep fiat p = (fiat, p) := by
  simp [MarginState.positionStep, h]

/-- LONG take-profit branch: fires whenever the close price is at or above the
threshold, regardless of the stop-loss threshold. -/
lemma positionStep_long_tp (s : MarginState) (fiat : ℚ) (p : Position)
    (hA : p.is_active = true) (hT : p.investment_type = PositionType.LONG)
    (h : p.asset_price * s.take_profit_percentage ≤ s.last_close_price) :
    s.positionStep fiat p =
      (fiat - p.usd_invested * p.leverage * s.fiat_interest_rate
         + p.usd_invested * p.leverage * (s.take_profit_percentage - 1)
         + p.usd_invested * p.leverage,
       { p with is_active := false }) := by
  simp [MarginState.positionStep, hA, hT, h]

/-- LONG stop-loss branch: fires only when the take-profit check failed and the
close price is at or below the stop-loss threshold. -/
lemma positionStep_long_sl (s : MarginState) (fiat : ℚ) (p : Position)
    (hA : p.is_active = true) (hT : p.investment_type = PositionType.LONG)
    (h1 : s.last_close_price < p.asset_price * s.take_profit_percentage)
    (h2 : s.last_close_price ≤ p.asset_price * s.stop_loss_percentage) :
    s.positionStep fiat p =
      (fiat - p.usd_invested * p.leverage * s.fiat_interest_rate
         + p.usd_invested * p.leverage * (s.stop_loss_percentage - 1)
         + p.usd_invested * p.leverage,
       { p with is_active := false }) := by
  simp [MarginState.positionStep, hA, hT, h2, not_le.mpr h1]

/-- LONG with neither threshold crossed: only the interest is subtracted. -/
lemma positionStep_long_none (s : MarginState) (fiat : ℚ) (p : Position)
    (hA : p.is_active = true) (hT : p.investment_type = PositionType.LONG)
    (h1 : s.last_close_price < p.asset_price * s.take_profit_percentage)
    (h2 : p.asset_price * s.stop_loss_percentage < s.last_close_price) :
    s.positionStep fiat p =
      (fiat - p.usd_invested * p.leverage * s.fiat_interest_rate, p) := by
  simp [MarginState.positionStep, hA, hT, not_le.mpr h1, not_le.mpr h2]

/-- SHORT take-profit branch: fires whenever the close price is at or below
the reflected threshold, regardless of the stop-loss threshold. -/
lemma positionStep_short_tp (s : MarginState) (fiat : ℚ) (p : Position)
    (hA : p.is_active = true) (hT : p.investment_type = PositionType.SHORT)
    (h : s.last_close_price ≤ p.asset_price * (2 - s.take_profit_percentage)) :
    s.positionStep fiat p =
      (fiat - p.usd_invested * p.leverage * s.asset_interest_rate
         + p.usd_invested * p.leverage * (s.take_profit_percentage - 1)
         + p.usd_invested * p.leverage,
       { p with is_active := false }) := by
  simp [MarginState.positionStep, hA, hT, h]

/-- SHORT stop-loss branch: fires only when the take-profit check failed and
the close price is at or above the reflected stop-loss threshold. -/
lemma positionStep_short_sl (s : MarginState) (fiat : ℚ) (p : Position)
    (hA : p.is_active = true) (hT : p.investment_type = PositionType.SHORT)
    (h1 : p.asset_price * (2 - s.take_profit_percentage) < s.last_close_price)
    (h2 : p.asset_price * (2 - s.stop_loss_percentage) ≤ s.last_close_price) :
    s.positionStep fiat p =
      (fiat - p.usd_invested * p.leverage * s.asset_interest_rate
         + p.usd_invested * p.leverage * (s.stop_loss_percentage - 1)
         + p.usd_invested * p.leverage,
       { p with is_active := false }) := by
  simp [MarginState.positionStep, hA, hT, h2, not_le.mpr h1]

/-- SHORT with neither threshold crossed: only the interest is subtracted. -/
lemma positionStep_short_none (s : MarginState) (fiat : ℚ) (p : Position)
    (hA : p.is_active = true) (hT : p.investment_type = PositionType.SHORT)
    (h1 : p.asset_price * (2 - s.take_profit_percentage) < s.last_close_price)
    (h2 : s.last_close_price < p.asset_price * (2 - s.stop_loss_percentage)) :
    s.positionStep fiat p =
      (fiat - p.usd_invested * p.leverage * s.asset_interest_rate, p) := by
  simp [MarginState.positionStep, hA, hT, not_le.mpr h1, not_le.mpr h2]

/-- The valuation fold, started from any accumulator, adds the total
contribution of the still-active rows. -/
lemma foldl_contribution (s : MarginState) :
    ∀ (l : List Position) (init : ℚ),
      l.foldl
        (fun acc p =>
          if p.is_active = false then acc else acc + s.positionContribution p)
        init
        = init + ((l.filter fun p => p.is_active).map s.positionContribution).sum := by
  intro l
  induction l with
  | nil => intro init; simp
  | cons hd tl ih =>
      intro init
      by_cases hA : hd.is_active
      · simp only [List.foldl_cons, hA, Bool.true_eq_false, if_false,
          List.filter_cons_of_pos hA, List.map_cons, List.sum_cons, ih]
        ring
      · have hA' : hd.is_active = false := by simpa using hA
        simp [List.foldl_cons, hA', List.filter_cons, ih]

/-- Successful LONG open: inclusive affordability, exact debit, active row
appended. -/
lemma make_long_success (s : MarginState) (date : Nat) (L : ℚ)
    (h : s.investment_size * L ≤ s.portfolio_size) :
    s.make_long_investment date L =
      ({ s with
          portfolio_size := s.portfolio_size - s.investment_size * L,
          investments := s.investments ++
            [{ date := date, investment_type := PositionType.LONG,
               usd_invested := s.investment_size,
               asset_price := s.last_close_price, leverage := L,
               is_active := true }] },
       [{ date := date, investment_type := PositionType.LONG,
          usd_invested := s.investment_size, asset_price := s.last_close_price,
          leverage := L, is_active := true }]) := by
  simp only [MarginState.make_long_investment, if_neg (not_lt.mpr h)]

/-- Rejected LONG open: empty result, state unchanged. -/
lemma make_long_reject (s : MarginState) (date : Nat) (L : ℚ)
    (h : s.portfolio_size < s.investment_size * L) :
    s.make_long_investment date L = (s, []) := by
  simp only [MarginState.make_long_investment, if_pos h]

/-- Successful SHORT open: inclusive affordability, exact debit, active row
appended. -/
lemma make_short_success (s : MarginState) (date : Nat) (L : ℚ)
    (h : s.investment_size * L ≤ s.portfolio_size) :
    s.make_short_investment date L =
      ({ s with
          portfolio_size := s.portfolio_size - s.investment_size * L,
          investments := s.investments ++
            [{ date := date, investment_type := PositionType.SHORT,
               usd_invested := s.investment_size,
               asset_price := s.last_close_price, leverage := L,
               is_active := true }] },
       [{ date := date, investment_type := PositionType.SHORT,
          usd_invested := s.investment_size, asset_price := s.last_close_price,
          leverage := L, is_active := true }]) := by
  simp only [MarginState.make_short_investment, if_neg (not_lt.mpr h)]

/-- Rejected SHORT open: empty result, state unchanged. -/
lemma make_short_reject (s : MarginState) (date : Nat) (L : ℚ)
    (h : s.portfolio_size < s.investment_size * L) :
    s.make_short_investment date L = (s, []) := by
  simp only [MarginState.make_short_investment, if_pos h]

/-- The portfolio value reported alongside a `make_investment` call is `0.0`
whenever `can_trade` was already false. -/
lemma make_investment_value_zero {s : MarginState} (close : ℚ) (date : Nat)
    (a : Action) (strength : ℚ) (rf : Bool) (h : s.can_trade = false) :
    (s.make_investment close date a strength rf).2.2 = 0 := by
  have hr : (s.make_investment close date a strength rf).1.can_trade = false :=
    make_investment_can_trade_false close date a strength rf h
  simp only [MarginState.make_investment] at hr ⊢
  cases rf
  · simpa using (value_zero_of_can_trade_false hr).2
  · simpa using (value_zero_of_can_trade_false hr).1

end Lemmas

/-- C1: For `MarginInvestor`, once `can_trade` becomes false it never becomes
true again on any subsequent sequence of `invest` / `make_investment` /
valuation calls, and every subsequent call to `get_portfolio_value()` or
`get_portfolio_value_final()` returns exactly `0.0` regardless of later prices
or decisions. -/
theorem margin_can_trade_sticky (s : MarginState) (ops : List MarginOp)
    (h : s.can_trade = false) :
    (s.applyOps ops).can_trade = false ∧
    (s.applyOps ops).get_portfolio_value = 0 ∧
    (s.applyOps ops).get_portfolio_value_final = 0 := by
  have hct : ∀ (l : List MarginOp) (t : MarginState), t.can_trade = false →
      (t.applyOps l).can_trade = false := by
    intro l
    induction l with
    | nil => intro t ht; exact ht
    | cons hd tl ih =>
        intro t ht
        exact ih (t.applyOp hd) (applyOp_can_trade_false hd ht)
  have h1 := hct ops s h
  exact ⟨h1, (value_zero_of_can_trade_false h1).2,
    (value_zero_of_can_trade_false h1).1⟩

/-- Witness for C1 at the concrete wiped-out state and a concrete later
sequence of calls. -/
theorem margin_can_trade_sticky_witness :
    exMarginDown.can_trade = false ∧
    (exMarginDown.applyOps exOps).can_trade = false ∧
    (exMarginDown.applyOps exOps).get_portfolio_value = 0 ∧
    (exMarginDown.applyOps exOps).get_portfolio_value_final = 0 :=
  ⟨by decide, margin_can_trade_sticky exMarginDown exOps (by decide)⟩

/-- C4: in the per-timestamp update pass, for every active position the
take-profit threshold is checked before the stop-loss threshold with inclusive
comparisons (LONG closes on `close ≥ entry * take_profit_pct` or
`close ≤ entry * stop_loss_pct`; SHORT symmetrically around `2 - pct`), a
price exactly equal to a threshold triggers it, at most one of TP/SL fires per
position per timestamp (the equations below cover every case and each yields
exactly one outcome), and a close price satisfying both thresholds at once
always resolves as a take-profit. -/
theorem margin_tp_checked_before_sl (s : MarginState) (fiat : ℚ) (p : Position)
    (hA : p.is_active = true) :
    (p.investment_type = PositionType.LONG →
       (p.asset_price * s.take_profit_percentage ≤ s.last_close_price →
          s.positionStep fiat p =
            (fiat - p.usd_invested * p.leverage * s.fiat_interest_rate
               + p.usd_invested * p.leverage * (s.take_profit_percentage - 1)
               + p.usd_invested * p.leverage,
             { p with is_active := false })) ∧
       (s.last_close_price < p.asset_price * s.take_profit_percentage →
        s.last_close_price ≤ p.asset_price * s.stop_loss_percentage →
          s.positionStep fiat p =
            (fiat - p.usd_invested * p.leverage * s.fiat_interest_rate
               + p.usd_invested * p.leverage * (s.stop_loss_percentage - 1)
               + p.usd_invested * p.leverage,
             { p with is_active := false }))) ∧
    (p.investment_type = PositionType.SHORT →
       (s.last_close_price ≤ p.asset_price * (2 - s.take_profit_percentage) →
          s.positionStep fiat p =
            (fiat - p.usd_invested * p.leverage * s.asset_interest_rate
               + p.usd_invested * p.leverage * (s.take_profit_percentage - 1)
               + p.usd_invested * p.leverage,
             { p with is_active := false })) ∧
       (p.asset_price * (2 - s.take_profit_percentage) < s.last_close_price →
        p.asset_price * (2 - s.stop_loss_percentage) ≤ s.last_close_price →
          s.positionStep fiat p =
            (fiat - p.usd_invested * p.leverage * s.asset_interest_rate
               + p.usd_invested * p.leverage * (s.stop_loss_percentage - 1)
               + p.usd_invested * p.leverage,
             { p with is_active := false }))) ∧
    (p.investment_type = PositionType.LONG →
     p.asset_price * s.take_profit_percentage ≤ s.last_close_price →
     s.last_close_price ≤ p.asset_price * s.stop_loss_percentage →
       s.positionStep fiat p =
         (fiat - p.usd_invested * p.leverage * s.fiat_interest_rate
            + p.usd_invested * p.leverage * (s.take_profit_percentage - 1)
            + p.usd_invested * p.leverage,
          { p with is_active := false })) ∧
    (p.investment_type = PositionType.SHORT →
     s.last_close_price ≤ p.asset_price * (2 - s.take_profit_percentage) →
     p.asset_price * (2 - s.stop_loss_percentage) ≤ s.last_close_price →
       s.positionStep fiat p =
         (fiat - p.usd_invested * p.leverage * s.asset_interest_rate
            + p.usd_invested * p.leverage * (s.take_profit_percentage - 1)
            + p.usd_invested * p.leverage,
          { p with is_active := false })) :=
  ⟨fun hT =>
    ⟨fun h => positionStep_long_tp s fiat p hA hT h,
     fun h1 h2 => positionStep_long_sl s fiat p hA hT h1 h2⟩,
   fun hT =>
    ⟨fun h => positionStep_short_tp s fiat p hA hT h,
     fun h1 h2 => positionStep_short_sl s fiat p hA hT h1 h2⟩,
   fun hT h _ => positionStep_long_tp s fiat p hA hT h,
   fun hT h _ => positionStep_short_tp s fiat p hA hT h⟩

/-- Witness for C4 at a concrete configuration in which the close price
satisfies the take-profit and the stop-loss threshold simultaneously: the
take-profit resolution wins. -/
theorem margin_tp_checked_before_sl_witness :
    exPosLong.is_active = true ∧
    exPosLong.investment_type = PositionType.LONG ∧
    exPosLong.asset_price * exMarginWeird.take_profit_percentage ≤
      exMarginWeird.last_close_price ∧
    exMarginWeird.last_close_price ≤
      exPosLong.asset_price * exMarginWeird.stop_loss_percentage ∧
    exMarginWeird.positionStep 1000 exPosLong =
      (1000 - exPosLong.usd_invested * exPosLong.leverage *
          exMarginWeird.fiat_interest_rate
         + exPosLong.usd_invested * exPosLong.leverage *
            (exMarginWeird.take_profit_percentage - 1)
         + exPosLong.usd_invested * exPosLong.leverage,
       { exPosLong with is_active := false }) := by
  have h1 : exPosLong.asset_price * exMarginWeird.take_profit_percentage ≤
      exMarginWeird.last_close_price := by
    norm_num [exPosLong, exMarginWeird, exMargin]
  have h2 : exMarginWeird.last_close_price ≤
      exPosLong.asset_price * exMarginWeird.stop_loss_percentage := by
    norm_num [exPosLong, exMarginWeird, exMargin]
  exact ⟨rfl, rfl, h1, h2,
    (margin_tp_checked_before_sl exMarginWeird 1000 exPosLong rfl).2.2.1
      rfl h1 h2⟩

/-- C5: `MarginInvestor.invest` runs the interest/TP-SL update pass at every
price-series timestamp whether or not a decision exists there, and in that
pass every active position accrues interest `fiat_committed * leverage * rate`
(`fiat_interest_rate` for LONG, `asset_interest_rate` for SHORT), subtracted
from the available fiat unconditionally - the result may be negative (see the
witness). -/
theorem margin_interest_every_timestamp (acts : List (Nat × Action × ℚ))
    (s : MarginState) (date : Nat) (close fiat : ℚ) (p : Position) :
    (s.investStep acts (date, close) =
       (match lookupAction acts date with
        | none => ({ s with last_close_price := close }).update_portfolio_value
        | some pr =>
            ((({ s with
                  last_close_price := close }).update_portfolio_value).make_investment_core
               date pr.1 pr.2).1)) ∧
    (p.is_active = true → p.investment_type = PositionType.LONG →
     s.last_close_price < p.asset_price * s.take_profit_percentage →
     p.asset_price * s.stop_loss_percentage < s.last_close_price →
       s.positionStep fiat p =
         (fiat - p.usd_invested * p.leverage * s.fiat_interest_rate, p)) ∧
    (p.is_active = true → p.investment_type = PositionType.SHORT →
     p.asset_price * (2 - s.take_profit_percentage) < s.last_close_price →
     s.last_close_price < p.asset_price * (2 - s.stop_loss_percentage) →
       s.positionStep fiat p =
         (fiat - p.usd_invested * p.leverage * s.asset_interest_rate, p)) := by
  refine ⟨?_, ?_, ?_⟩
  · rcases h : lookupAction acts date with _ | pr <;>
      simp [MarginState.investStep, MarginState.make_investment, h]
  · intro hA hT h1 h2
    exact positionStep_long_none s fiat p hA hT h1 h2
  · intro hA hT h1 h2
    exact positionStep_short_none s fiat p hA hT h1 h2

/-- Witness for C5: at a concrete high interest rate the accrual on an active
LONG position with neither threshold crossed drives the available fiat from
`0` to `-2000`. -/
theorem margin_interest_every_timestamp_witness :
    exPosLong.is_active = true ∧
    exPosLong.investment_type = PositionType.LONG ∧
    exMarginHighRate.last_close_price <
      exPosLong.asset_price * exMarginHighRate.take_profit_percentage ∧
    exPosLong.asset_price * exMarginHighRate.stop_loss_percentage <
      exMarginHighRate.last_close_price ∧
    exMarginHighRate.positionStep 0 exPosLong =
      (0 - exPosLong.usd_invested * exPosLong.leverage *
          exMarginHighRate.fiat_interest_rate, exPosLong) ∧
    (exMarginHighRate.positionStep 0 exPosLong).1 < 0 := by
  have h1 : exMarginHighRate.last_close_price <
      exPosLong.asset_price * exMarginHighRate.take_profit_percentage := by
    norm_num [exPosLong, exMarginHighRate, exMargin]
  have h2 : exPosLong.asset_price * exMarginHighRate.stop_loss_percentage <
      exMarginHighRate.last_close_price := by
    norm_num [exPosLong, exMarginHighRate, exMargin]
  have hstep :=
    (margin_interest_every_timestamp [] exMarginHighRate 0 0 0 exPosLong).2.1
      rfl rfl h1 h2
  refine ⟨rfl, rfl, h1, h2, hstep, ?_⟩
  rw [hstep]
  norm_num [exPosLong, exMarginHighRate, exMargin]

/-- C6: `get_portfolio_value()` and `get_portfolio_value_final()` return the
same value in every state; when `can_trade` is true that value equals the
available fiat plus, for each still-active position, the returned notional
`fiat_committed * leverage` plus `fiat_committed * leverage * (ratio - 1)` for
LONG or `fiat_committed * leverage * (1 - ratio)` for SHORT, with
`ratio = last_close / entry_price` (the `marginValueSpec` formula). -/
theorem margin_valuation_refines (s : MarginState) :
    s.get_portfolio_value = s.get_portfolio_value_final ∧
    (s.can_trade = true → s.get_portfolio_value_final = marginValueSpec s) := by
  refine ⟨rfl, ?_⟩
  intro h
  simp only [MarginState.get_portfolio_value_final, h]
  rw [if_neg (by simp)]
  rw [foldl_contribution]
  rfl

/-- Witness for C6 at a concrete tradeable state with one active position. -/
theorem margin_valuation_refines_witness :
    exMarginWithPos.can_trade = true ∧
    exMarginWithPos.get_portfolio_value = exMarginWithPos.get_portfolio_value_final ∧
    exMarginWithPos.get_portfolio_value_final = marginValueSpec exMarginWithPos :=
  ⟨by decide, (margin_valuation_refines exMarginWithPos).1,
   (margin_valuation_refines exMarginWithPos).2 (by decide)⟩

/-- C2: For `SpotInvestor` at any state with last close price `c > 0`: a BUY
with `fiat_balance ≥ investment_size` (inclusive boundary) debits
`investment_size`, credits `investment_size * (1 - fee) / c` coins and emits
one ledger row `{fiat_delta: -investment_size, coin_delta: +coins_acquired}`,
and is rejected (no row, state unchanged) otherwise; a SELL with
`accumulated_coins ≥ investment_size / c` (inclusive boundary) debits
`investment_size / c` coins, credits `investment_size * (1 - fee)` fiat and
emits one ledger row `{fiat_delta: +investment_size,
coin_delta: -coins_needed}`, and is rejected otherwise. -/
theorem spot_trade_exact (s : SpotState) (date : Nat) (hc : 0 < s.last_close) :
    (s.investment_size ≤ s.portfolio_size →
       s.make_investment_core date Action.BUY =
         Except.ok
           ({ s with
               portfolio_size := s.portfolio_size - s.investment_size,
               accumulated_coins := s.accumulated_coins +
                 s.investment_size * (1 - s.trading_fee) / s.last_close },
            [{ date := date, fiat_amount_invested := -s.investment_size,
               coin_amount :=
                 s.investment_size * (1 - s.trading_fee) / s.last_close }])) ∧
    (s.portfolio_size < s.investment_size →
       s.make_investment_core date Action.BUY = Except.ok (s, [])) ∧
    (s.investment_size / s.last_close ≤ s.accumulated_coins →
       s.make_investment_core date Action.SELL =
         Except.ok
           ({ s with
               portfolio_size :=
                 s.portfolio_size + s.investment_size * (1 - s.trading_fee),
               accumulated_coins :=
                 s.accumulated_coins - s.investment_size / s.last_close },
            [{ date := date, fiat_amount_invested := s.investment_size,
               coin_amount := -(s.investment_size / s.last_close) }])) ∧
    (s.accumulated_coins < s.investment_size / s.last_close →
       s.make_investment_core date Action.SELL = Except.ok (s, [])) := by
  refine ⟨?_, ?_, ?_, ?_⟩
  · intro h
    have hq : s.investment_size - s.investment_size * s.trading_fee
        = s.investment_size * (1 - s.trading_fee) := by ring
    simp only [SpotState.make_investment_core, SpotState.make_buy_investment,
      if_neg (not_lt.mpr h)]
    rw [hq]
  · intro h
    simp only [SpotState.make_investment_core, SpotState.make_buy_investment,
      if_pos h, emptyInvestments]
  · intro h
    have hq : s.portfolio_size + s.investment_size -
          s.investment_size * s.trading_fee
        = s.portfolio_size + s.investment_size * (1 - s.trading_fee) := by ring
    simp only [SpotState.make_investment_core, SpotState.make_sell_investment,
      if_neg (not_lt.mpr h)]
    rw [hq]
  · intro h
    simp only [SpotState.make_investment_core, SpotState.make_sell_investment,
      if_pos h, emptyInvestments]

/-- Witness for C2: a concrete accepted BUY at close 140 and a concrete
rejected BUY with zero fiat. -/
theorem spot_trade_exact_witness :
    0 < exSpot.last_close ∧
    exSpot.investment_size ≤ exSpot.portfolio_size ∧
    exSpot.make_investment_core 7 Action.BUY =
      Except.ok
        ({ exSpot with
            portfolio_size := exSpot.portfolio_size - exSpot.investment_size,
            accumulated_coins := exSpot.accumulated_coins +
              exSpot.investment_size * (1 - exSpot.trading_fee) / exSpot.last_close },
         [{ date := 7, fiat_amount_invested := -exSpot.investment_size,
            coin_amount :=
              exSpot.investment_size * (1 - exSpot.trading_fee) / exSpot.last_close }]) ∧
    exSpotPoor.portfolio_size < exSpotPoor.investment_size ∧
    exSpotPoor.make_investment_core 7 Action.BUY = Except.ok (exSpotPoor, []) := by
  have hc : (0 : ℚ) < exSpot.last_close := by norm_num [exSpot]
  have h1 : exSpot.investment_size ≤ exSpot.portfolio_size := by
    norm_num [exSpot]
  have hc2 : (0 : ℚ) < exSpotPoor.last_close := by norm_num [exSpotPoor]
  have h2 : exSpotPoor.portfolio_size < exSpotPoor.investment_size := by
    norm_num [exSpotPoor]
  exact ⟨hc, h1, (spot_trade_exact exSpot 7 hc).1 h1, h2,
    (spot_trade_exact exSpotPoor 7 hc2).2.1 h2⟩

/-- C3: For `MarginInvestor`, a BUY (resp. SELL) decision with leverage `L`
opens a LONG (resp. SHORT) position if and only if the available fiat is at
least `investment_size * L` (boundary equality succeeds); on success the
available fiat is debited by exactly `investment_size * L` and an active
position record `{type, fiat_committed = investment_size, entry_price =
last close, leverage = L, is_active = true}` is appended; otherwise the result
is empty and the portfolio state is unchanged. -/
theorem margin_open_exact (s : MarginState) (date : Nat) (L : ℚ) :
    (s.investment_size * L ≤ s.portfolio_size →
       s.make_long_investment date L =
         ({ s with
             portfolio_size := s.portfolio_size - s.investment_size * L,
             investments := s.investments ++
               [{ date := date, investment_type := PositionType.LONG,
                  usd_invested := s.investment_size,
                  asset_price := s.last_close_price, leverage := L,
                  is_active := true }] },
          [{ date := date, investment_type := PositionType.LONG,
             usd_invested := s.investment_size,
             asset_price := s.last_close_price, leverage := L,
             is_active := true }])) ∧
    (s.portfolio_size < s.investment_size * L →
       s.make_long_investment date L = (s, [])) ∧
    (s.investment_size * L ≤ s.portfolio_size →
       s.make_short_investment date L =
         ({ s with
             portfolio_size := s.portfolio_size - s.investment_size * L,
             investments := s.investments ++
               [{ date := date, investment_type := PositionType.SHORT,
                  usd_invested := s.investment_size,
                  asset_price := s.last_close_price, leverage := L,
                  is_active := true }] },
          [{ date := date, investment_type := PositionType.SHORT,
             usd_invested := s.investment_size,
             asset_price := s.last_close_price, leverage := L,
             is_active := true }])) ∧
    (s.portfolio_size < s.investment_size * L →
       s.make_short_investment date L = (s, [])) ∧
    s.make_investment_core date Action.BUY L = s.make_long_investment date L ∧
    s.make_investment_core date Action.SELL L = s.make_short_investment date L :=
  ⟨fun h => make_long_success s date L h,
   fun h => make_long_reject s date L h,
   fun h => make_short_success s date L h,
   fun h => make_short_reject s date L h,
   rfl, rfl⟩

/-- Witness for C3: at the unit-test state an open with leverage 10 sits
exactly on the affordability boundary (`100 * 10 = 1000`) and succeeds, and an
open with leverage 11 is rejected unchanged. -/
theorem margin_open_exact_witness :
    exMargin.investment_size * 10 ≤ exMargin.portfolio_size ∧
    exMargin.make_long_investment 7 10 =
      ({ exMargin with
          portfolio_size := exMargin.portfolio_size - exMargin.investment_size * 10,
          investments := exMargin.investments ++
            [{ date := 7, investment_type := PositionType.LONG,
               usd_invested := exMargin.investment_size,
               asset_price := exMargin.last_close_price, leverage := 10,
               is_active := true }] },
       [{ date := 7, investment_type := PositionType.LONG,
          usd_invested := exMargin.investment_size,
          asset_price := exMargin.last_close_price, leverage := 10,
          is_active := true }]) ∧
    exMargin.portfolio_size < exMargin.investment_size * 11 ∧
    exMargin.make_short_investment 7 11 = (exMargin, []) := by
  have h1 : exMargin.investment_size * 10 ≤ exMargin.portfolio_size := by
    norm_num [exMargin]
  have h2 : exMargin.portfolio_size < exMargin.investment_size * 11 := by
    norm_num [exMargin]
  exact ⟨h1, (margin_open_exact exMargin 7 10).1 h1, h2,
    (margin_open_exact exMargin 7 11).2.2.2.1 h2⟩

/-- C7 counterexample: the claim says every investor raises on an action value
outside `{BUY, SELL, HOLD}`, but `MarginInvestor._make_investment` has no
raise path - at a concrete invalid action it silently returns an empty result
with the state unchanged, exactly like a HOLD. -/
theorem margin_invalid_action_silently_absorbed :
    exMargin.make_investment_core 3 (Action.other "NOT_AN_ACTION") 2 =
      (exMargin, []) ∧
    (exMargin.make_investment 100 3 (Action.other "NOT_AN_ACTION") 2 false).2.1 =
      [] ∧
    exMargin.make_investment_core 3 Action.HOLD 2 =
      exMargin.make_investment_core 3 (Action.other "NOT_AN_ACTION") 2 := by
  refine ⟨rfl, ?_, rfl⟩
  rfl

/-- C7 amended: only `SpotInvestor` raises on an action value outside
`{BUY, SELL, HOLD}` (`ValueError`, modelled as `Except.error`), also through
the public `make_investment`; `MarginInvestor._make_investment` silently
absorbs any such value as a no-op with an empty result. -/
theorem invalid_action_raises_spot_only (s : SpotState) (m : MarginState)
    (close : ℚ) (date : Nat) (strength : ℚ) (rf : Bool) (t : String) :
    s.make_investment_core date (Action.other t) =
      Except.error ("Invalid action type: " ++ t) ∧
    s.make_investment close date (Action.other t) rf =
      Except.error ("Invalid action type: " ++ t) ∧
    m.make_investment_core date (Action.other t) strength = (m, []) := by
  refine ⟨rfl, ?_, rfl⟩
  simp [SpotState.make_investment, SpotState.make_investment_core]

/-- C8: processing a HOLD decision produces an empty ledger delta and leaves
the spot portfolio state unchanged; HOLD and rejected BUY/SELL decisions never
produce a ledger row, and the operation returns normally (an `Except.ok`
carrying the empty ledger) rather than failing while constructing the empty
result. -/
theorem hold_and_rejects_produce_no_row (s : SpotState) (m : MarginState)
    (date : Nat) (strength : ℚ) :
    s.make_investment_core date Action.HOLD = Except.ok (s, []) ∧
    (s.portfolio_size < s.investment_size →
       s.make_investment_core date Action.BUY = Except.ok (s, [])) ∧
    (s.accumulated_coins < s.investment_size / s.last_close →
       s.make_investment_core date Action.SELL = Except.ok (s, [])) ∧
    m.make_investment_core date Action.HOLD strength = (m, []) := by
  refine ⟨rfl, ?_, ?_, rfl⟩
  · intro h
    simp only [SpotState.make_investment_core, SpotState.make_buy_investment,
      if_pos h, emptyInvestments]
  · intro h
    simp only [SpotState.make_investment_core, SpotState.make_sell_investment,
      if_pos h, emptyInvestments]

/-- Witness for C8: HOLD, a rejected BUY and a rejected SELL at the concrete
empty-handed spot state, and a margin HOLD, all returning normally with empty
ledgers and unchanged state. -/
theorem hold_and_rejects_produce_no_row_witness :
    exSpotPoor.make_investment_core 9 Action.HOLD = Except.ok (exSpotPoor, []) ∧
    exSpotPoor.portfolio_size < exSpotPoor.investment_size ∧
    exSpotPoor.make_investment_core 9 Action.BUY = Except.ok (exSpotPoor, []) ∧
    exSpotPoor.accumulated_coins < exSpotPoor.investment_size / exSpotPoor.last_close ∧
    exSpotPoor.make_investment_core 9 Action.SELL = Except.ok (exSpotPoor, []) ∧
    exMargin.make_investment_core 9 Action.HOLD 0 = (exMargin, []) := by
  have h1 : exSpotPoor.portfolio_size < exSpotPoor.investment_size := by
    norm_num [exSpotPoor]
  have h2 : exSpotPoor.accumulated_coins <
      exSpotPoor.investment_size / exSpotPoor.last_close := by
    norm_num [exSpotPoor]
  have H := hold_and_rejects_produce_no_row exSpotPoor exMargin 9 0
  exact ⟨H.1, h1, H.2.1 h1, h2, H.2.2.1 h2, H.2.2.2⟩

/-- C9: the `can_trade` flag gates only valuation, not trade execution: with
`can_trade` false but `available_fiat ≥ investment_size * L`, a BUY or SELL
still appends an active position and debits the fiat exactly as it would with
`can_trade` true, while the portfolio value reported alongside the trade is
`0.0`. -/
theorem margin_can_trade_gates_only_valuation (s : MarginState) (date : Nat)
    (L close : ℚ) (rf : Bool) (hct : s.can_trade = false)
    (h : s.investment_size * L ≤ s.portfolio_size) :
    s.make_long_investment date L =
      ({ s with
          portfolio_size := s.portfolio_size - s.investment_size * L,
          investments := s.investments ++
            [{ date := date, investment_type := PositionType.LONG,
               usd_invested := s.investment_size,
               asset_price := s.last_close_price, leverage := L,
               is_active := true }] },
       [{ date := date, investment_type := PositionType.LONG,
          usd_invested := s.investment_size, asset_price := s.last_close_price,
          leverage := L, is_active := true }]) ∧
    s.make_short_investment date L =
      ({ s with
          portfolio_size := s.portfolio_size - s.investment_size * L,
          investments := s.investments ++
            [{ date := date, investment_type := PositionType.SHORT,
               usd_invested := s.investment_size,
               asset_price := s.last_close_price, leverage := L,
               is_active := true }] },
       [{ date := date, investment_type := PositionType.SHORT,
          usd_invested := s.investment_size, asset_price := s.last_close_price,
          leverage := L, is_active := true }]) ∧
    (s.make_long_investment date L).1.get_portfolio_value = 0 ∧
    (s.make_short_investment date L).1.get_portfolio_value = 0 ∧
    (({ s with can_trade := true }).make_long_investment date L).1 =
      { (s.make_long_investment date L).1 with can_trade := true } ∧
    (({ s with can_trade := true }).make_short_investment date L).1 =
      { (s.make_short_investment date L).1 with can_trade := true } ∧
    (s.make_investment close date Action.BUY L rf).2.2 = 0 ∧
    (s.make_investment close date Action.SELL L rf).2.2 = 0 := by
  have hl := make_long_success s date L h
  have hs := make_short_success s date L h
  have hlt := make_long_success { s with can_trade := true } date L h
  have hst := make_short_success { s with can_trade := true } date L h
  have hlz : (s.make_long_investment date L).1.can_trade = false := by
    rw [long_can_trade]; exact hct
  have hsz : (s.make_short_investment date L).1.can_trade = false := by
    rw [short_can_trade]; exact hct
  refine ⟨hl, hs, (value_zero_of_can_trade_false hlz).2,
    (value_zero_of_can_trade_false hsz).2, ?_, ?_,
    make_investment_value_zero close date Action.BUY L rf hct,
    make_investment_value_zero close date Action.SELL L rf hct⟩
  · rw [hlt, hl]
  · rw [hst, hs]

/-- Witness for C9 at a concrete wiped-out state: the trade still executes
with the exact debit while the reported value is `0.0`. -/
theorem margin_can_trade_gates_only_valuation_witness :
    exMarginDown.can_trade = false ∧
    exMarginDown.investment_size * 2 ≤ exMarginDown.portfolio_size ∧
    exMarginDown.make_long_investment 4 2 =
      ({ exMarginDown with
          portfolio_size :=
            exMarginDown.portfolio_size - exMarginDown.investment_size * 2,
          investments := exMarginDown.investments ++
            [{ date := 4, investment_type := PositionType.LONG,
               usd_invested := exMarginDown.investment_size,
               asset_price := exMarginDown.last_close_price, leverage := 2,
               is_active := true }] },
       [{ date := 4, investment_type := PositionType.LONG,
          usd_invested := exMarginDown.investment_size,
          asset_price := exMarginDown.last_close_price, leverage := 2,
          is_active := true }]) ∧
    (exMarginDown.make_long_investment 4 2).1.get_portfolio_value = 0 ∧
    (exMarginDown.make_investment 100 4 Action.BUY 2 true).2.2 = 0 := by
  have h : exMarginDown.investment_size * 2 ≤ exMarginDown.portfolio_size := by
    norm_num [exMarginDown, exMargin]
  have H :=
    margin_can_trade_gates_only_valuation exMarginDown 4 2 100 true rfl h
  exact ⟨rfl, h, H.1, H.2.2.1, H.2.2.2.2.2.2.1⟩

/-- C10: in `MarginInvestor.make_investment` the interest/TP-SL update pass
runs before the decision is executed, so a position opened at timestamp `t` is
never charged interest and never closed by TP/SL at `t` itself (it is appended
active, with the fiat debited by exactly the notional, only after the pass);
its first interest accrual and first TP/SL evaluation occur at the next
processed timestamp (third conjunct, at the following update pass). -/
theorem margin_update_runs_before_decision (s : MarginState) (close : ℚ)
    (date : Nat) (a : Action) (strength : ℚ) (rf : Bool) :
    (s.make_investment close date a strength rf =
       (let u := ({ s with last_close_price := close }).update_portfolio_value
        let r := u.make_investment_core date a strength
        (r.1, r.2,
         if rf then r.1.get_portfolio_value_final
         else r.1.get_portfolio_value))) ∧
    ((({ s with
          last_close_price := close }).update_portfolio_value).investment_size *
        strength ≤
      (({ s with last_close_price := close }).update_portfolio_value).portfolio_size →
       (s.make_investment close date Action.BUY strength rf).1 =
         { ({ s with last_close_price := close }).update_portfolio_value with
             portfolio_size :=
               (({ s with
                    last_close_price := close }).update_portfolio_value).portfolio_size -
                 (({ s with
                      last_close_price := close }).update_portfolio_value).investment_size *
                   strength,
             investments :=
               (({ s with
                    last_close_price := close }).update_portfolio_value).investments ++
                 [{ date := date, investment_type := PositionType.LONG,
                    usd_invested :=
                      (({ s with
                           last_close_price := close }).update_portfolio_value).investment_size,
                    asset_price := close, leverage := strength,
                    is_active := true }] }) ∧
    (∀ (t : MarginState) (p : Position), t.investments = [p] →
       p.is_active = true → p.investment_type = PositionType.LONG →
       t.last_close_price < p.asset_price * t.take_profit_percentage →
       p.asset_price * t.stop_loss_percentage < t.last_close_price →
         t.update_portfolio_value.portfolio_size =
           t.portfolio_size - p.usd_invested * p.leverage * t.fiat_interest_rate) := by
  refine ⟨rfl, ?_, ?_⟩
  · intro h
    have e := make_long_success _ date strength h
    have hlc :
        (({ s with last_close_price := close }).update_portfolio_value).last_close_price =
          close := upv_last_close _
    show ((({ s with
        last_close_price := close }).update_portfolio_value).make_investment_core
          date Action.BUY strength).1 = _
    simp only [MarginState.make_investment_core]
    rw [e]
    dsimp only
    rw [hlc]
  · intro t p hinv hA hT h1 h2
    have hps := positionStep_long_none t t.portfolio_size p hA hT h1 h2
    simp only [MarginState.update_portfolio_value, hinv, List.foldl_cons,
      List.foldl_nil, hps, apply_ite MarginState.portfolio_size]
    simp

/-- Witness for C10: a BUY executed at the unit-test state is appended active
with no interest charged at its opening timestamp, and the single-position
follow-up pass charges exactly one interest accrual. -/
theorem margin_update_runs_before_decision_witness :
    (({ exMargin with
         last_close_price := 100 }).update_portfolio_value).investment_size * 2 ≤
      (({ exMargin with
           last_close_price := 100 }).update_portfolio_value).portfolio_size ∧
    (exMargin.make_investment 100 4 Action.BUY 2 false).1 =
      { ({ exMargin with last_close_price := 100 }).update_portfolio_value with
          portfolio_size :=
            (({ exMargin with
                 last_close_price := 100 }).update_portfolio_value).portfolio_size -
              (({ exMargin with
                   last_close_price := 100 }).update_portfolio_value).investment_size *
                2,
          investments :=
            (({ exMargin with
                 last_close_price := 100 }).update_portfolio_value).investments ++
              [{ date := 4, investment_type := PositionType.LONG,
                 usd_invested :=
                   (({ exMargin with
                        last_close_price := 100 }).update_portfolio_value).investment_size,
                 asset_price := 100, leverage := 2, is_active := true }] } ∧
    exMarginOnePos.update_portfolio_value.portfolio_size =
      exMarginOnePos.portfolio_size -
        exPosLong.usd_invested * exPosLong.leverage *
          exMarginOnePos.fiat_interest_rate := by
  have h :
      (({ exMargin with
           last_close_price := 100 }).update_portfolio_value).investment_size * 2 ≤
        (({ exMargin with
             last_close_price := 100 }).update_portfolio_value).portfolio_size := by
    norm_num [MarginState.update_portfolio_value, exMargin]
  have h1 : exMarginOnePos.last_close_price <
      exPosLong.asset_price * exMarginOnePos.take_profit_percentage := by
    norm_num [exMarginOnePos, exMargin, exPosLong]
  have h2 : exPosLong.asset_price * exMarginOnePos.stop_loss_percentage <
      exMarginOnePos.last_close_price := by
    norm_num [exMarginOnePos, exMargin, exPosLong]
  have H := margin_update_runs_before_decision exMargin 100 4 Action.BUY 2 false
  exact ⟨h, H.2.1 h, H.2.2 exMarginOnePos exPosLong rfl rfl rfl h1 h2⟩

end BitcoinBot
